import Mathlib

/-
Shallow embedding of the Stripe webhook reconciliation logic of the
better-saas repository, as given in
src/src/content/docs/en/features/payment-billing.mdx (the webhook route
POST and its four handler functions, together with the Drizzle schema of
the subscriptions, invoices and paymentMethods tables).

Timestamps are modelled as integers (milliseconds); the JavaScript
expressions new Date() and crypto.randomUUID() are nondeterministic, so
the current time and the generated uuid are passed as explicit
parameters. Database tables are lists of rows; the Drizzle
onConflictDoUpdate keyed on a unique column is modelled as: if a row with
the key exists, apply the set clause to every row with that key
(under the unique constraint at most one row matches), otherwise append
the freshly built row.
-/

namespace BetterSaas

/-- A row of the subscriptions table (schema.ts: pgTable subscriptions). -/
structure SubscriptionRow where
  id : String
  userId : String
  stripeSubscriptionId : Option String
  stripeCustomerId : Option String
  stripePriceId : Option String
  status : String
  planId : String
  currentPeriodStart : Option Int
  currentPeriodEnd : Option Int
  cancelAtPeriodEnd : Bool
  createdAt : Int
  updatedAt : Int
deriving DecidableEq

/-- A row of the invoices table (schema.ts: pgTable invoices). -/
structure InvoiceRow where
  id : String
  userId : String
  subscriptionId : Option String
  stripeInvoiceId : Option String
  amount : Int
  currency : String
  status : String
  hostedInvoiceUrl : Option String
  invoicePdf : Option String
  createdAt : Int
deriving DecidableEq

/-- A row of the paymentMethods table (schema.ts: pgTable paymentMethods). -/
structure PaymentMethodRow where
  id : String
  userId : String
  stripePaymentMethodId : String
  type : String
  brand : Option String
  last4 : Option String
  expiryMonth : Option Int
  expiryYear : Option Int
  isDefault : Bool
  createdAt : Int
deriving DecidableEq

/-- The relational store: the three tables the payment system persists. -/
structure DB where
  subscriptions : List SubscriptionRow
  invoices : List InvoiceRow
  paymentMethods : List PaymentMethodRow
deriving DecidableEq

/-- The fields of a Stripe subscription payload (event.data.object) that
the handlers read. -/
structure SubscriptionPayload where
  id : String
  status : String
  current_period_start : Int
  current_period_end : Int
  cancel_at_period_end : Bool
deriving DecidableEq

/-- The fields of a Stripe invoice payload (event.data.object) that
the handlers read. -/
structure InvoicePayload where
  id : String
  customer : String
  amount_paid : Int
  currency : String
  hosted_invoice_url : Option String
  invoice_pdf : Option String
deriving DecidableEq

/-- The set clause of handleSubscriptionUpdate applied to one row:
status, currentPeriodStart and currentPeriodEnd (epoch seconds times
1000), cancelAtPeriodEnd, updatedAt = now. -/
def applySubscriptionSet (s : SubscriptionPayload) (now : Int)
    (r : SubscriptionRow) : SubscriptionRow :=
  { r with
    status := s.status
    currentPeriodStart := some (s.current_period_start * 1000)
    currentPeriodEnd := some (s.current_period_end * 1000)
    cancelAtPeriodEnd := s.cancel_at_period_end
    updatedAt := now }

/-- handleSubscriptionUpdate: db.update(subscriptions).set(...)
.where(eq(subscriptions.stripeSubscriptionId, subscription.id)).
An UPDATE statement: rows whose stripeSubscriptionId equals the payload
id get the set clause; all other rows, and the other tables, are
untouched; no row is ever inserted. -/
def handleSubscriptionUpdate (s : SubscriptionPayload) (now : Int)
    (db : DB) : DB :=
  { db with
    subscriptions := db.subscriptions.map fun r =>
      if r.stripeSubscriptionId = some s.id then applySubscriptionSet s now r
      else r }

/-- handleSubscriptionDeleted: db.update(subscriptions)
.set(\x7b status: canceled, updatedAt: now \x7d)
.where(eq(subscriptions.stripeSubscriptionId, subscription.id)). -/
def handleSubscriptionDeleted (s : SubscriptionPayload) (now : Int)
    (db : DB) : DB :=
  { db with
    subscriptions := db.subscriptions.map fun r =>
      if r.stripeSubscriptionId = some s.id then
        { r with status := "canceled", updatedAt := now }
      else r }

/-- The onConflictDoUpdate set clause of handleInvoicePaymentSucceeded:
only status, hostedInvoiceUrl and invoicePdf are listed in set. -/
def invoiceConflictSet (inv : InvoicePayload) (r : InvoiceRow) : InvoiceRow :=
  { r with
    status := "paid"
    hostedInvoiceUrl := inv.hosted_invoice_url
    invoicePdf := inv.invoice_pdf }

/-- The values object of the insert in handleInvoicePaymentSucceeded:
id = crypto.randomUUID(), userId = invoice.customer (verbatim),
stripeInvoiceId, amount = amount_paid, currency, status paid, the two
URLs; subscriptionId is not listed (null); createdAt defaults to now. -/
def freshInvoiceRow (inv : InvoicePayload) (uuid : String) (now : Int) :
    InvoiceRow :=
  { id := uuid
    userId := inv.customer
    subscriptionId := none
    stripeInvoiceId := some inv.id
    amount := inv.amount_paid
    currency := inv.currency
    status := "paid"
    hostedInvoiceUrl := inv.hosted_invoice_url
    invoicePdf := inv.invoice_pdf
    createdAt := now }

/-- handleInvoicePaymentSucceeded: db.insert(invoices).values(...)
.onConflictDoUpdate(\x7b target: invoices.stripeInvoiceId, set: ... \x7d):
insert-or-update-on-conflict keyed on the unique stripeInvoiceId
column. -/
def handleInvoicePaymentSucceeded (inv : InvoicePayload) (uuid : String)
    (now : Int) (db : DB) : DB :=
  if db.invoices.any (fun r => decide (r.stripeInvoiceId = some inv.id)) then
    { db with
      invoices := db.invoices.map fun r =>
        if r.stripeInvoiceId = some inv.id then invoiceConflictSet inv r
        else r }
  else
    { db with invoices := db.invoices ++ [freshInvoiceRow inv uuid now] }

/-- handleInvoicePaymentFailed: console.log only; no database write. -/
def handleInvoicePaymentFailed (_inv : InvoicePayload) (db : DB) : DB :=
  db

/-- The decoded event.data.object: either a subscription object or an
invoice object. -/
inductive EventObject where
  | subscriptionObj (s : SubscriptionPayload)
  | invoiceObj (i : InvoicePayload)
deriving DecidableEq

/-- The decoded event envelope produced by stripe.webhooks.constructEvent
on success: a type string and the data.object payload. -/
structure StripeEvent where
  type : String
  dataObject : EventObject
deriving DecidableEq

/-- The five event types the switch statement registers cases for. -/
def registeredTypes : List String :=
  ["customer.subscription.created", "customer.subscription.updated",
   "customer.subscription.deleted", "invoice.payment_succeeded",
   "invoice.payment_failed"]

/-- The switch statement of the POST route: dispatch on event.type.
A thrown exception is modelled as Except.error: the dbFails flag injects
a database error into any dispatched handler that performs a database
operation, and a payload of the wrong shape for a recognized type is a
handler error as well. handleInvoicePaymentFailed and the default branch
only log, so they never raise. -/
def dispatch (dbFails : Bool) (e : StripeEvent) (uuid : String) (now : Int)
    (db : DB) : Except String DB :=
  if e.type = "customer.subscription.created" ∨
     e.type = "customer.subscription.updated" then
    match e.dataObject with
    | .subscriptionObj s =>
        if dbFails then .error "database error"
        else .ok (handleSubscriptionUpdate s now db)
    | .invoiceObj _ => .error "malformed payload"
  else if e.type = "customer.subscription.deleted" then
    match e.dataObject with
    | .subscriptionObj s =>
        if dbFails then .error "database error"
        else .ok (handleSubscriptionDeleted s now db)
    | .invoiceObj _ => .error "malformed payload"
  else if e.type = "invoice.payment_succeeded" then
    match e.dataObject with
    | .invoiceObj i =>
        if dbFails then .error "database error"
        else .ok (handleInvoicePaymentSucceeded i uuid now db)
    | .subscriptionObj _ => .error "malformed payload"
  else if e.type = "invoice.payment_failed" then
    .ok (match e.dataObject with
         | .invoiceObj i => handleInvoicePaymentFailed i db
         | .subscriptionObj _ => db)
  else
    .ok db

/-- The HTTP responses the route produces: NextResponse.json of
either \x7b received: true \x7d with status 200, or \x7b error: msg \x7d
with status 400 or 500. -/
inductive HttpResponse where
  | ok200Received
  | badRequest400 (error : String)
  | serverError500 (error : String)
deriving DecidableEq

/-- The POST route handler. verify stands for
stripe.webhooks.constructEvent(body, signature, secret) with the secret
fixed by the environment: none means the call threw (signature
verification failed), some e means it returned the decoded event. On
verification failure it responds 400 before any handler runs; on a
handler exception the catch block responds 500; otherwise it responds
200 with received true. -/
def POST (verify : String → String → Option StripeEvent) (dbFails : Bool)
    (body sig : String) (uuid : String) (now : Int) (db : DB) :
    HttpResponse × DB :=
  match verify body sig with
  | none => (.badRequest400 "Invalid signature", db)
  | some e =>
    match dispatch dbFails e uuid now db with
    | .ok db2 => (.ok200Received, db2)
    | .error _ => (.serverError500 "Webhook handler failed", db)

/-- Number of invoice rows carrying a given provider invoice id. -/
def countInvoiceRows (db : DB) (iid : String) : Nat :=
  (db.invoices.filter (fun r => decide (r.stripeInvoiceId = some iid))).length

/-- Number of subscription rows carrying a given provider
subscription id. -/
def countSubscriptionRows (db : DB) (sid : String) : Nat :=
  (db.subscriptions.filter
    (fun r => decide (r.stripeSubscriptionId = some sid))).length

/-- A subscription row with the updatedAt column cleared, to compare row
states modulo the updated-at timestamp. -/
def clearUpdatedAt (r : SubscriptionRow) : SubscriptionRow :=
  { r with updatedAt := 0 }

/-- True when the dispatched handler threw an exception reaching the
catch block of the route. -/
def handlerRaises (dbFails : Bool) (e : StripeEvent) (uuid : String)
    (now : Int) (db : DB) : Bool :=
  match dispatch dbFails e uuid now db with
  | .ok _ => false
  | .error _ => true

/-- The membership test on the unique invoice key is equivalent to the
row count for that key being positive. -/
lemma any_key_iff (l : List InvoiceRow) (iid : String) :
    l.any (fun r => decide (r.stripeInvoiceId = some iid)) = true ↔
      0 < (l.filter (fun r => decide (r.stripeInvoiceId = some iid))).length := by
  induction l with
  | nil => simp
  | cons a t ih =>
    by_cases h : a.stripeInvoiceId = some iid <;>
      simp [h, List.filter_cons, ih]

/-- DB-level version of any_key_iff. -/
lemma any_count_iff (db : DB) (iid : String) :
    db.invoices.any (fun r => decide (r.stripeInvoiceId = some iid)) = true ↔
      0 < countInvoiceRows db iid :=
  any_key_iff db.invoices iid

/-- The conflict-update set clause of the invoice upsert does not touch
the unique key column. -/
@[simp] lemma invoiceConflictSet_key (inv : InvoicePayload) (r : InvoiceRow) :
    (invoiceConflictSet inv r).stripeInvoiceId = r.stripeInvoiceId := rfl

/-- The conflict-update set clause does not touch the unique key, so the
per-key row counts are unchanged by the conflict branch. -/
lemma count_conflictMap (inv : InvoicePayload) (iid : String)
    (l : List InvoiceRow) :
    ((l.map fun r =>
        if r.stripeInvoiceId = some inv.id then invoiceConflictSet inv r
        else r).filter
      (fun r => decide (r.stripeInvoiceId = some iid))).length =
    (l.filter (fun r => decide (r.stripeInvoiceId = some iid))).length := by
  induction l with
  | nil => rfl
  | cons a t ih =>
    by_cases h : a.stripeInvoiceId = some inv.id
    · by_cases h2 : a.stripeInvoiceId = some iid
      · have h3 : inv.id = iid := by
          rw [h] at h2
          exact Option.some.inj h2
        subst h3
        simp [h, h2, List.filter_cons, ih]
      · have h3 : ¬ inv.id = iid := by
          intro hc
          rw [h] at h2
          exact h2 (by rw [hc])
        simp [h, h2, h3, List.filter_cons, ih]
    · by_cases h2 : a.stripeInvoiceId = some iid
      · have h3 : ¬ iid = inv.id := by
          intro hc
          rw [hc] at h2
          exact h h2
        simp [h, h2, h3, List.filter_cons, ih]
      · simp [h, h2, List.filter_cons, ih]

/-- The conflict branch of handleInvoicePaymentSucceeded preserves every
per-key row count. -/
lemma count_handle_conflict (inv : InvoicePayload) (uuid : String)
    (now : Int) (db : DB) (iid : String)
    (h : db.invoices.any
      (fun r => decide (r.stripeInvoiceId = some inv.id)) = true) :
    countInvoiceRows (handleInvoicePaymentSucceeded inv uuid now db) iid =
      countInvoiceRows db iid := by
  simp only [handleInvoicePaymentSucceeded, h, if_true, countInvoiceRows]
  exact count_conflictMap inv iid db.invoices

/-- The insert branch of handleInvoicePaymentSucceeded adds exactly one
row carrying the key of the payload. -/
lemma count_handle_insert_same (inv : InvoicePayload) (uuid : String)
    (now : Int) (db : DB)
    (h : db.invoices.any
      (fun r => decide (r.stripeInvoiceId = some inv.id)) = false) :
    countInvoiceRows (handleInvoicePaymentSucceeded inv uuid now db) inv.id =
      countInvoiceRows db inv.id + 1 := by
  simp only [handleInvoicePaymentSucceeded, h, Bool.false_eq_true, if_false,
    countInvoiceRows, List.filter_append]
  simp [freshInvoiceRow]

/-- The insert branch of handleInvoicePaymentSucceeded leaves the row
count of every other key unchanged. -/
lemma count_handle_insert_other (inv : InvoicePayload) (uuid : String)
    (now : Int) (db : DB) (iid : String)
    (h : db.invoices.any
      (fun r => decide (r.stripeInvoiceId = some inv.id)) = false)
    (h2 : iid ≠ inv.id) :
    countInvoiceRows (handleInvoicePaymentSucceeded inv uuid now db) iid =
      countInvoiceRows db iid := by
  simp only [handleInvoicePaymentSucceeded, h, Bool.false_eq_true, if_false,
    countInvoiceRows, List.filter_append]
  have h3 : ¬ (freshInvoiceRow inv uuid now).stripeInvoiceId = some iid := by
    simp [freshInvoiceRow]
    exact fun hch => h2 hch.symm
  simp [h3]

/-- Claim C1: for every HTTP POST to the Stripe webhook endpoint whose
raw body and stripe-signature header fail signature verification, the
endpoint responds with HTTP 400 carrying an error object and performs no
database write at all. -/
theorem C1_invalid_signature_400_no_write
    (verify : String → String → Option StripeEvent) (dbFails : Bool)
    (body sig uuid : String) (now : Int) (db : DB)
    (h : verify body sig = none) :
    POST verify dbFails body sig uuid now db =
      (HttpResponse.badRequest400 "Invalid signature", db) := by
  simp [POST, h]

/-- Witness for C1 at a concrete request whose verification fails. -/
theorem C1_invalid_signature_400_no_write_witness :
    POST (fun _ _ => none) false "raw-body" "t=1,v1=bad" "uuid-1" 0
      ⟨[], [], []⟩ =
      (HttpResponse.badRequest400 "Invalid signature", ⟨[], [], []⟩) :=
  C1_invalid_signature_400_no_write (fun _ _ => none) false
    "raw-body" "t=1,v1=bad" "uuid-1" 0 ⟨[], [], []⟩ rfl

/-- Claim C7: every invoice.payment_failed event is observational only:
the handler logs and performs no database write, every table is
unchanged, and the endpoint still responds HTTP 200. -/
theorem C7_payment_failed_observational
    (verify : String → String → Option StripeEvent) (dbFails : Bool)
    (body sig uuid : String) (now : Int) (db : DB) (e : StripeEvent)
    (hv : verify body sig = some e)
    (ht : e.type = "invoice.payment_failed") :
    POST verify dbFails body sig uuid now db =
      (HttpResponse.ok200Received, db) := by
  obtain ⟨ty, obj⟩ := e
  simp only at ht
  subst ht
  cases obj <;> simp [POST, hv, dispatch, handleInvoicePaymentFailed]

/-- Witness for C7 at a concrete payment-failed event over a nonempty
database. -/
theorem C7_payment_failed_observational_witness :
    POST
      (fun _ _ => some
        ⟨"invoice.payment_failed",
         .invoiceObj ⟨"in_9", "cus_9", 100, "usd", none, none⟩⟩)
      true "b" "s" "uuid-2" 3
      ⟨[], [⟨"loc", "user", none, some "in_9", 100, "usd", "open",
             none, none, 0⟩], []⟩ =
      (HttpResponse.ok200Received,
       ⟨[], [⟨"loc", "user", none, some "in_9", 100, "usd", "open",
              none, none, 0⟩], []⟩) :=
  C7_payment_failed_observational
    (fun _ _ => some
      ⟨"invoice.payment_failed",
       .invoiceObj ⟨"in_9", "cus_9", 100, "usd", none, none⟩⟩)
    true "b" "s" "uuid-2" 3
    ⟨[], [⟨"loc", "user", none, some "in_9", 100, "usd", "open",
           none, none, 0⟩], []⟩
    ⟨"invoice.payment_failed",
     .invoiceObj ⟨"in_9", "cus_9", 100, "usd", none, none⟩⟩
    rfl rfl

/-- Claim C8: a validly signed event whose type string is not one of the
five registered types is logged, performs no database write, and gets
HTTP 200 with received true. -/
theorem C8_unrecognized_type_acknowledged
    (verify : String → String → Option StripeEvent) (dbFails : Bool)
    (body sig uuid : String) (now : Int) (db : DB) (e : StripeEvent)
    (hv : verify body sig = some e)
    (ht : e.type ∉ registeredTypes) :
    POST verify dbFails body sig uuid now db =
      (HttpResponse.ok200Received, db) := by
  simp only [registeredTypes, List.mem_cons, List.mem_singleton,
    not_or, List.not_mem_nil] at ht
  obtain ⟨h1, h2, h3, h4, h5⟩ := ht
  simp [POST, hv, dispatch, h1, h2, h3, h4, h5]

/-- Witness for C8 at a concrete event of the unregistered type
checkout.session.completed. -/
theorem C8_unrecognized_type_acknowledged_witness :
    POST
      (fun _ _ => some
        ⟨"checkout.session.completed",
         .invoiceObj ⟨"in_1", "cus_1", 1, "usd", none, none⟩⟩)
      true "b" "s" "uuid-3" 5 ⟨[], [], []⟩ =
      (HttpResponse.ok200Received, ⟨[], [], []⟩) :=
  C8_unrecognized_type_acknowledged
    (fun _ _ => some
      ⟨"checkout.session.completed",
       .invoiceObj ⟨"in_1", "cus_1", 1, "usd", none, none⟩⟩)
    true "b" "s" "uuid-3" 5 ⟨[], [], []⟩
    ⟨"checkout.session.completed",
     .invoiceObj ⟨"in_1", "cus_1", 1, "usd", none, none⟩⟩
    rfl (by decide)

/-- With a database error injected, dispatch of any registered type other
than the log-only invoice.payment_failed raises. -/
lemma dispatch_dbFails_error (e : StripeEvent) (uuid : String) (now : Int)
    (db : DB) (hmem : e.type ∈ registeredTypes)
    (hne : e.type ≠ "invoice.payment_failed") :
    handlerRaises true e uuid now db = true := by
  obtain ⟨ty, obj⟩ := e
  simp only [registeredTypes, List.mem_cons, List.not_mem_nil,
    or_false] at hmem
  simp only at hne
  rcases hmem with h | h | h | h | h
  all_goals first
    | exact absurd h hne
    | (subst h; cases obj <;> simp [handlerRaises, dispatch])

/-- Claim C9: for a validly signed event, a handler exception is caught
by the dispatcher layer and surfaced as an HTTP 500 error object with no
database change, the endpoint returns 500 exactly when a handler raises,
and an injected database error in any registered database-touching
handler does raise. -/
theorem C9_handler_error_500
    (verify : String → String → Option StripeEvent) (dbFails : Bool)
    (body sig uuid : String) (now : Int) (db : DB) (e : StripeEvent)
    (hv : verify body sig = some e) :
    ((POST verify dbFails body sig uuid now db).1 =
        HttpResponse.serverError500 "Webhook handler failed" ↔
      handlerRaises dbFails e uuid now db = true) ∧
    (handlerRaises dbFails e uuid now db = true →
      POST verify dbFails body sig uuid now db =
        (HttpResponse.serverError500 "Webhook handler failed", db)) ∧
    (dbFails = true → e.type ∈ registeredTypes →
      e.type ≠ "invoice.payment_failed" →
      handlerRaises dbFails e uuid now db = true) := by
  refine ⟨?_, ?_, ?_⟩
  · cases hd : dispatch dbFails e uuid now db <;>
      simp [POST, handlerRaises, hv, hd]
  · intro hr
    cases hd : dispatch dbFails e uuid now db with
    | ok db2 =>
      rw [handlerRaises, hd] at hr
      simp at hr
    | error msg => simp [POST, hv, hd]
  · intro hdb hmem hne
    subst hdb
    exact dispatch_dbFails_error e uuid now db hmem hne

/-- Witness for C9 at a concrete subscription-updated event with an
injected database error. -/
theorem C9_handler_error_500_witness :
    POST
      (fun _ _ => some
        ⟨"customer.subscription.updated",
         .subscriptionObj ⟨"sub_1", "active", 10, 20, false⟩⟩)
      true "b" "s" "uuid-5" 7 ⟨[], [], []⟩ =
      (HttpResponse.serverError500 "Webhook handler failed",
       ⟨[], [], []⟩) := by
  have h := C9_handler_error_500
    (fun _ _ => some
      ⟨"customer.subscription.updated",
       .subscriptionObj ⟨"sub_1", "active", 10, 20, false⟩⟩)
    true "b" "s" "uuid-5" 7 ⟨[], [], []⟩
    ⟨"customer.subscription.updated",
     .subscriptionObj ⟨"sub_1", "active", 10, 20, false⟩⟩
    rfl
  exact h.2.1 (h.2.2 rfl (by decide) (by decide))

/-- Claim C10: an invoice.payment_succeeded event that inserts a new
Invoice row stores the raw provider customer identifier from the payload
verbatim in the userId column, with no lookup to a local user. -/
theorem C10_userId_is_raw_customer_id
    (inv : InvoicePayload) (uuid : String) (now : Int) (db : DB)
    (h : db.invoices.any
      (fun r => decide (r.stripeInvoiceId = some inv.id)) = false) :
    ((handleInvoicePaymentSucceeded inv uuid now db).invoices.filter
        (fun r => decide (r.stripeInvoiceId = some inv.id))).map
      (fun r => r.userId) = [inv.customer] := by
  have hnil : db.invoices.filter
      (fun r => decide (r.stripeInvoiceId = some inv.id)) = [] := by
    rw [List.filter_eq_nil_iff]
    intro a ha
    have h2 := List.any_eq_false.mp h a ha
    simpa using h2
  simp only [handleInvoicePaymentSucceeded, h, Bool.false_eq_true,
    if_false, List.filter_append, hnil]
  simp [freshInvoiceRow]

/-- Witness for C10 at a concrete insert over a database holding an
unrelated invoice row. -/
theorem C10_userId_is_raw_customer_id_witness :
    ((handleInvoicePaymentSucceeded
        ⟨"in_7", "cus_raw_42", 250, "usd", none, none⟩ "uuid-4" 9
        ⟨[], [⟨"loc", "user", none, some "in_other", 5, "usd", "open",
               none, none, 0⟩], []⟩).invoices.filter
        (fun r => decide (r.stripeInvoiceId = some "in_7"))).map
      (fun r => r.userId) = ["cus_raw_42"] :=
  C10_userId_is_raw_customer_id
    ⟨"in_7", "cus_raw_42", 250, "usd", none, none⟩ "uuid-4" 9
    ⟨[], [⟨"loc", "user", none, some "in_other", 5, "usd", "open",
           none, none, 0⟩], []⟩
    (by decide)

/-- Claim C2: the mapping from provider invoice id to local Invoice row
is unique: if every provider id maps to at most one row, then delivering
the same invoice.payment_succeeded event twice leaves exactly one row
with that stripeInvoiceId, and the reconciliation never creates two rows
for the same provider id. -/
theorem C2_invoice_key_unique
    (inv : InvoicePayload) (u1 u2 : String) (n1 n2 : Int) (db : DB)
    (huniq : ∀ iid, countInvoiceRows db iid ≤ 1) :
    countInvoiceRows
        (handleInvoicePaymentSucceeded inv u2 n2
          (handleInvoicePaymentSucceeded inv u1 n1 db)) inv.id = 1 ∧
    ∀ iid, countInvoiceRows
        (handleInvoicePaymentSucceeded inv u2 n2
          (handleInvoicePaymentSucceeded inv u1 n1 db)) iid ≤ 1 := by
  have h1 : countInvoiceRows (handleInvoicePaymentSucceeded inv u1 n1 db)
      inv.id = 1 := by
    cases hb : db.invoices.any
        (fun r => decide (r.stripeInvoiceId = some inv.id)) with
    | true =>
      rw [count_handle_conflict inv u1 n1 db inv.id hb]
      have hpos := (any_count_iff db inv.id).mp hb
      have hle := huniq inv.id
      omega
    | false =>
      rw [count_handle_insert_same inv u1 n1 db hb]
      have hzero : countInvoiceRows db inv.id = 0 := by
        by_contra hc
        have hpos : 0 < countInvoiceRows db inv.id :=
          Nat.pos_of_ne_zero hc
        have := (any_count_iff db inv.id).mpr hpos
        rw [hb] at this
        exact Bool.false_ne_true this
      omega
  have hall1 : ∀ iid,
      countInvoiceRows (handleInvoicePaymentSucceeded inv u1 n1 db) iid
        ≤ 1 := by
    intro iid
    by_cases hEq : iid = inv.id
    · subst hEq
      omega
    · cases hb : db.invoices.any
          (fun r => decide (r.stripeInvoiceId = some inv.id)) with
      | true =>
        rw [count_handle_conflict inv u1 n1 db iid hb]
        exact huniq iid
      | false =>
        rw [count_handle_insert_other inv u1 n1 db iid hb hEq]
        exact huniq iid
  have hany2 : (handleInvoicePaymentSucceeded inv u1 n1 db).invoices.any
      (fun r => decide (r.stripeInvoiceId = some inv.id)) = true :=
    (any_count_iff _ inv.id).mpr (by omega)
  constructor
  · rw [count_handle_conflict inv u2 n2 _ inv.id hany2]
    exact h1
  · intro iid
    rw [count_handle_conflict inv u2 n2 _ iid hany2]
    exact hall1 iid

/-- Witness for C2: the concrete in_123 scenario of the spec, delivered
twice over an empty store. -/
theorem C2_invoice_key_unique_witness :
    countInvoiceRows
        (handleInvoicePaymentSucceeded
          ⟨"in_123", "cus_1", 999, "usd", some "https://x", some "https://y"⟩
          "uuid-b" 2
          (handleInvoicePaymentSucceeded
            ⟨"in_123", "cus_1", 999, "usd", some "https://x", some "https://y"⟩
            "uuid-a" 1 ⟨[], [], []⟩)) "in_123" = 1 :=
  (C2_invoice_key_unique
    ⟨"in_123", "cus_1", 999, "usd", some "https://x", some "https://y"⟩
    "uuid-a" "uuid-b" 1 2 ⟨[], [], []⟩
    (fun _ => by simp [countInvoiceRows])).1

/-- The subscription set clause does not touch the unique key column. -/
@[simp] lemma applySubscriptionSet_key (s : SubscriptionPayload) (now : Int)
    (r : SubscriptionRow) :
    (applySubscriptionSet s now r).stripeSubscriptionId =
      r.stripeSubscriptionId := rfl

/-- Applying the subscription set clause twice is absorbed by the last
application. -/
lemma applySubscriptionSet_comp (s : SubscriptionPayload) (n1 n2 : Int)
    (r : SubscriptionRow) :
    applySubscriptionSet s n2 (applySubscriptionSet s n1 r) =
      applySubscriptionSet s n2 r := rfl

/-- An UPDATE whose where-clause matches no row leaves the table
unchanged. -/
lemma map_noMatch (s : SubscriptionPayload) (now : Int)
    (l : List SubscriptionRow)
    (hall : ∀ r ∈ l, r.stripeSubscriptionId ≠ some s.id) :
    (l.map fun r =>
      if r.stripeSubscriptionId = some s.id then applySubscriptionSet s now r
      else r) = l := by
  induction l with
  | nil => rfl
  | cons a t ih =>
    simp only [List.map_cons]
    rw [if_neg (hall a (List.mem_cons_self a t)),
      ih (fun r hr => hall r (List.mem_cons_of_mem a hr))]

/-- Claim C3 counterexample: processing a subscription-created event
over an empty store inserts nothing, so no row for the provider id
exists afterwards. -/
theorem C3_counterexample :
    (handleSubscriptionUpdate ⟨"sub_1", "active", 100, 200, false⟩ 5
        ⟨[], [], []⟩).subscriptions = [] ∧
    (handleSubscriptionUpdate ⟨"sub_1", "active", 100, 200, false⟩ 5
        ⟨[], [], []⟩).subscriptions.any
      (fun r => decide (r.stripeSubscriptionId = some "sub_1")) = false := by
  decide

/-- Claim C3 amended: the subscription created/updated handler is an
UPDATE, not an upsert: each row matching the provider subscription id
gets status, period start/end (epoch seconds times 1000),
cancelAtPeriodEnd and updatedAt set; non-matching rows and the other
tables are untouched; when no row matches, the database is unchanged
and no row is inserted. -/
theorem C3_subscription_update_amended (s : SubscriptionPayload)
    (now : Int) (db : DB) :
    ((handleSubscriptionUpdate s now db).subscriptions.length =
      db.subscriptions.length) ∧
    (∀ r ∈ db.subscriptions, r.stripeSubscriptionId = some s.id →
      ({ r with
          status := s.status
          currentPeriodStart := some (s.current_period_start * 1000)
          currentPeriodEnd := some (s.current_period_end * 1000)
          cancelAtPeriodEnd := s.cancel_at_period_end
          updatedAt := now } : SubscriptionRow) ∈
        (handleSubscriptionUpdate s now db).subscriptions) ∧
    (∀ r ∈ db.subscriptions, r.stripeSubscriptionId ≠ some s.id →
      r ∈ (handleSubscriptionUpdate s now db).subscriptions) ∧
    ((∀ r ∈ db.subscriptions, r.stripeSubscriptionId ≠ some s.id) →
      handleSubscriptionUpdate s now db = db) ∧
    ((handleSubscriptionUpdate s now db).invoices = db.invoices) ∧
    ((handleSubscriptionUpdate s now db).paymentMethods =
      db.paymentMethods) := by
  refine ⟨by simp [handleSubscriptionUpdate], ?_, ?_, ?_, rfl, rfl⟩
  · intro r hr hid
    have h0 : (if r.stripeSubscriptionId = some s.id then
        applySubscriptionSet s now r else r) ∈
        db.subscriptions.map (fun r2 =>
          if r2.stripeSubscriptionId = some s.id then
            applySubscriptionSet s now r2 else r2) :=
      List.mem_map_of_mem _ hr
    rw [if_pos hid] at h0
    exact h0
  · intro r hr hid
    have h0 : (if r.stripeSubscriptionId = some s.id then
        applySubscriptionSet s now r else r) ∈
        db.subscriptions.map (fun r2 =>
          if r2.stripeSubscriptionId = some s.id then
            applySubscriptionSet s now r2 else r2) :=
      List.mem_map_of_mem _ hr
    rw [if_neg hid] at h0
    exact h0
  · intro hall
    unfold handleSubscriptionUpdate
    rw [map_noMatch s now db.subscriptions hall]

/-- A subscription row matching sub_1, used to witness the amended C3
and C5. -/
def rowC3 : SubscriptionRow :=
  ⟨"loc_s1", "user_1", some "sub_1", some "cus_1", some "price_1",
   "trialing", "basic", none, none, false, 0, 0⟩

/-- A store holding exactly the rowC3 subscription. -/
def dbC3 : DB := ⟨[rowC3], [], []⟩

/-- Witness for the amended C3 at a concrete matching row. -/
theorem C3_subscription_update_amended_witness :
    ({ rowC3 with
        status := "active"
        currentPeriodStart := some (100 * 1000)
        currentPeriodEnd := some (200 * 1000)
        cancelAtPeriodEnd := false
        updatedAt := 7 } : SubscriptionRow) ∈
      (handleSubscriptionUpdate ⟨"sub_1", "active", 100, 200, false⟩ 7
        dbC3).subscriptions :=
  (C3_subscription_update_amended ⟨"sub_1", "active", 100, 200, false⟩ 7
    dbC3).2.1 rowC3 (by simp [dbC3]) rfl

/-- Replaying the UPDATE is absorbed by the last application, row by
row. -/
lemma map_if_comp (s : SubscriptionPayload) (n1 n2 : Int)
    (l : List SubscriptionRow) :
    ((l.map fun r =>
        if r.stripeSubscriptionId = some s.id then applySubscriptionSet s n1 r
        else r).map fun r =>
        if r.stripeSubscriptionId = some s.id then applySubscriptionSet s n2 r
        else r) =
      l.map fun r =>
        if r.stripeSubscriptionId = some s.id then applySubscriptionSet s n2 r
        else r := by
  induction l with
  | nil => rfl
  | cons a t ih =>
    by_cases h : a.stripeSubscriptionId = some s.id <;>
      simp [h, applySubscriptionSet_comp, ih]

/-- The cleared row state after the UPDATE does not depend on the
processing timestamp. -/
lemma clear_handle (s : SubscriptionPayload) (n1 n2 : Int)
    (l : List SubscriptionRow) :
    ((l.map fun r =>
        if r.stripeSubscriptionId = some s.id then applySubscriptionSet s n1 r
        else r).map clearUpdatedAt) =
      (l.map fun r =>
        if r.stripeSubscriptionId = some s.id then applySubscriptionSet s n2 r
        else r).map clearUpdatedAt := by
  induction l with
  | nil => rfl
  | cons a t ih =>
    simp only [List.map_cons]
    by_cases h : a.stripeSubscriptionId = some s.id
    · rw [if_pos h, if_pos h, ih]
      rfl
    · rw [if_neg h, if_neg h, ih]

/-- Claim C4 counterexample: replaying the same subscription-updated
payload at a later processing time changes the row, because updatedAt is
set to the current time on every delivery. -/
theorem C4_counterexample :
    (handleSubscriptionUpdate ⟨"sub_9", "active", 10, 20, false⟩ 2
        (handleSubscriptionUpdate ⟨"sub_9", "active", 10, 20, false⟩ 1
          ⟨[⟨"loc", "user", some "sub_9", none, none, "trialing", "basic",
             none, none, false, 0, 0⟩], [], []⟩)).subscriptions ≠
      (handleSubscriptionUpdate ⟨"sub_9", "active", 10, 20, false⟩ 1
        ⟨[⟨"loc", "user", some "sub_9", none, none, "trialing", "basic",
           none, none, false, 0, 0⟩], [], []⟩).subscriptions := by
  decide

/-- Claim C4 amended: replaying a subscription-updated event with an
identical payload is idempotent up to the updatedAt column: the second
delivery is absorbed into a single delivery at its own timestamp, and
every column other than updatedAt is identical after the first and the
second delivery. -/
theorem C4_replay_amended (s : SubscriptionPayload) (n1 n2 : Int)
    (db : DB) :
    handleSubscriptionUpdate s n2 (handleSubscriptionUpdate s n1 db) =
      handleSubscriptionUpdate s n2 db ∧
    (handleSubscriptionUpdate s n2
        (handleSubscriptionUpdate s n1 db)).subscriptions.map
      clearUpdatedAt =
      (handleSubscriptionUpdate s n1 db).subscriptions.map
        clearUpdatedAt := by
  constructor
  · simp only [handleSubscriptionUpdate]
    rw [map_if_comp s n1 n2 db.subscriptions]
  · simp only [handleSubscriptionUpdate]
    rw [map_if_comp s n1 n2 db.subscriptions]
    exact clear_handle s n2 n1 db.subscriptions

/-- Claim C5 counterexample: with no pre-existing local row, a
subscription-created event followed by a subscription-deleted event for
the same provider id leaves no row at all, because the created handler
is an UPDATE and inserts nothing. -/
theorem C5_counterexample :
    (handleSubscriptionDeleted ⟨"sub_5", "canceled", 1, 2, false⟩ 2
        (handleSubscriptionUpdate ⟨"sub_5", "active", 1, 2, false⟩ 1
          ⟨[], [], []⟩)).subscriptions.any
      (fun r => decide (r.stripeSubscriptionId = some "sub_5")) = false := by
  decide

/-- Claim C5 amended: when a local Subscription row for the provider id
already exists, processing created then deleted leaves that row present
with status canceled, and the deleted handler never removes a row (the
table keeps its length). -/
theorem C5_deleted_amended (s : SubscriptionPayload) (n1 n2 : Int)
    (db : DB) (r : SubscriptionRow) (hr : r ∈ db.subscriptions)
    (hid : r.stripeSubscriptionId = some s.id) :
    ({ applySubscriptionSet s n1 r with
        status := "canceled", updatedAt := n2 } : SubscriptionRow) ∈
      (handleSubscriptionDeleted s n2
        (handleSubscriptionUpdate s n1 db)).subscriptions ∧
    (handleSubscriptionDeleted s n2
        (handleSubscriptionUpdate s n1 db)).subscriptions.length =
      db.subscriptions.length := by
  constructor
  · have h0 : (if r.stripeSubscriptionId = some s.id then
        applySubscriptionSet s n1 r else r) ∈
        db.subscriptions.map (fun r2 =>
          if r2.stripeSubscriptionId = some s.id then
            applySubscriptionSet s n1 r2 else r2) :=
      List.mem_map_of_mem _ hr
    rw [if_pos hid] at h0
    have h2 : (if (applySubscriptionSet s n1 r).stripeSubscriptionId =
          some s.id then
        ({ applySubscriptionSet s n1 r with
            status := "canceled", updatedAt := n2 } : SubscriptionRow)
      else applySubscriptionSet s n1 r) ∈
        (db.subscriptions.map (fun r2 =>
          if r2.stripeSubscriptionId = some s.id then
            applySubscriptionSet s n1 r2 else r2)).map (fun r2 =>
          if r2.stripeSubscriptionId = some s.id then
            ({ r2 with status := "canceled", updatedAt := n2 } :
              SubscriptionRow)
          else r2) :=
      List.mem_map_of_mem _ h0
    rw [if_pos (by rw [applySubscriptionSet_key]; exact hid)] at h2
    exact h2
  · simp [handleSubscriptionDeleted, handleSubscriptionUpdate]

/-- Witness for the amended C5 at a concrete pre-existing row. -/
theorem C5_deleted_amended_witness :
    ({ applySubscriptionSet ⟨"sub_1", "canceled", 1, 2, false⟩ 1 rowC3 with
        status := "canceled", updatedAt := 2 } : SubscriptionRow) ∈
      (handleSubscriptionDeleted ⟨"sub_1", "canceled", 1, 2, false⟩ 2
        (handleSubscriptionUpdate ⟨"sub_1", "canceled", 1, 2, false⟩ 1
          dbC3)).subscriptions ∧
    (handleSubscriptionDeleted ⟨"sub_1", "canceled", 1, 2, false⟩ 2
        (handleSubscriptionUpdate ⟨"sub_1", "canceled", 1, 2, false⟩ 1
          dbC3)).subscriptions.length = dbC3.subscriptions.length :=
  C5_deleted_amended ⟨"sub_1", "canceled", 1, 2, false⟩ 1 2 dbC3 rowC3
    (by simp [dbC3]) rfl

/-- Claim C6 counterexample: on the conflict-update path the amount
column is not in the set clause, so an existing row keeps its stored
amount 500 instead of the payload amount_paid 999. -/
theorem C6_counterexample :
    ((handleInvoicePaymentSucceeded
        ⟨"in_123", "cus_1", 999, "usd", some "https://x", some "https://y"⟩
        "uuid-c" 7
        ⟨[], [⟨"loc_inv", "user_1", none, some "in_123", 500, "eur",
               "open", none, none, 0⟩], []⟩).invoices.map
      (fun r => r.amount)) = [500] ∧ (500 : Int) ≠ 999 := by
  decide

/-- Claim C6 amended: the invoice upsert keyed on the provider invoice
id sets all listed fields on the insert path, but on the conflict path
updates only status, hostedInvoiceUrl and invoicePdf, leaving amount and
currency at their stored values. -/
theorem C6_invoice_upsert_amended (inv : InvoicePayload) (uuid : String)
    (now : Int) (db : DB) :
    (db.invoices.any
        (fun r => decide (r.stripeInvoiceId = some inv.id)) = false →
      (handleInvoicePaymentSucceeded inv uuid now db).invoices =
        db.invoices ++
          [{ id := uuid, userId := inv.customer, subscriptionId := none,
             stripeInvoiceId := some inv.id, amount := inv.amount_paid,
             currency := inv.currency, status := "paid",
             hostedInvoiceUrl := inv.hosted_invoice_url,
             invoicePdf := inv.invoice_pdf, createdAt := now }]) ∧
    (∀ r ∈ db.invoices, r.stripeInvoiceId = some inv.id →
      ({ r with status := "paid",
                hostedInvoiceUrl := inv.hosted_invoice_url,
                invoicePdf := inv.invoice_pdf } : InvoiceRow) ∈
        (handleInvoicePaymentSucceeded inv uuid now db).invoices) := by
  constructor
  · intro h
    simp [handleInvoicePaymentSucceeded, h, freshInvoiceRow]
  · intro r hr hid
    have hany : db.invoices.any
        (fun r2 => decide (r2.stripeInvoiceId = some inv.id)) = true := by
      rw [List.any_eq_true]
      exact ⟨r, hr, by simpa using hid⟩
    have h0 : (if r.stripeInvoiceId = some inv.id then
        invoiceConflictSet inv r else r) ∈
        db.invoices.map (fun r2 =>
          if r2.stripeInvoiceId = some inv.id then invoiceConflictSet inv r2
          else r2) :=
      List.mem_map_of_mem _ hr
    rw [if_pos hid] at h0
    simpa [handleInvoicePaymentSucceeded, hany, invoiceConflictSet]
      using h0

/-- Witness for the amended C6: the concrete in_123 delivery of the spec
over an empty store yields exactly the claimed row. -/
theorem C6_invoice_upsert_amended_witness :
    (handleInvoicePaymentSucceeded
        ⟨"in_123", "cus_1", 999, "usd", some "https://x", some "https://y"⟩
        "uuid-1" 5 ⟨[], [], []⟩).invoices =
      [{ id := "uuid-1", userId := "cus_1", subscriptionId := none,
         stripeInvoiceId := some "in_123", amount := 999,
         currency := "usd", status := "paid",
         hostedInvoiceUrl := some "https://x",
         invoicePdf := some "https://y", createdAt := 5 }] := by
  have h := (C6_invoice_upsert_amended
    ⟨"in_123", "cus_1", 999, "usd", some "https://x", some "https://y"⟩
    "uuid-1" 5 ⟨[], [], []⟩).1 (by decide)
  simpa using h

end BetterSaas
